import Mathlib

/-!
Shallow embedding of `src/assembly_ai_reader.py` (class `AssemblyAITranscriptReader`).

The Python module is a thin adapter: it resolves an API credential, maps user
options to a request payload, optionally extracts audio from video files, calls
the remote transcription service, renders the result (text / SRT / VTT) and
wraps it into a document.  We embed it as pure Lean functions:

* external effects (the fresh temporary-file name produced by
  `NamedTemporaryFile`, the outcome of the `pydub` extraction, whether
  `os.remove` raises, the remote service's response) are supplied through an
  `Env` record, so every run of the adapter is a deterministic function of the
  configuration, the environment and the input;
* the filesystem is a `Disk` (list of existing paths); creating a file conses
  its path, `os.remove` filters it out;
* raised exceptions become `Except.error` carrying the exception message
  (the Python code raises `ValueError` at construction — the spec's
  `ConfigurationError` — and a plain `Exception` with message
  `"Transcription failed: ..."` on a remote error — the spec's
  `TranscriptionError`);
* invocations of the external collaborators that the spec's claims count
  (the `pydub` extraction, the SRT/VTT subtitle renderers) are recorded in
  explicit logs (`extractions : Nat`, `renders : List RenderCall`).

Python truthiness matters in three places of the source (`api_key or
os.environ.get(...)`, `if self.word_boost`, `if self.language and not
self.language_detection`); it is embedded by the `truthyStr` / `truthyList`
predicates (`None` and the empty string / empty list are falsy).
-/

namespace AssemblyAIReader

deriving instance DecidableEq for Except

/-- The source's `class SpeechModel(str, Enum)`: the two acoustic models. -/
inductive SpeechModel where
  | best
  | nano
deriving DecidableEq, Repr

/-- The `.value` of the enum member; `getattr(aai.SpeechModel, v)` maps it to
the provider constant of the same string, so the payload stores this string. -/
def SpeechModel.value : SpeechModel → String
  | .best => "best"
  | .nano => "nano"

/-- The source's `class TranscriptFormat(str, Enum)`. -/
inductive TranscriptFormat where
  | text
  | srt
  | vtt
deriving DecidableEq, Repr

/-- Terminal states reported by `transcriber.transcribe` (the call blocks until
the remote service reaches `completed` or `error`). -/
inductive TranscriptStatus where
  | completed
  | error
deriving DecidableEq, Repr

/-- The remote service's response object as the adapter consumes it: a terminal
status, the provider error message, the optional raw text, and the two subtitle
renderers, each a function of the `chars_per_caption` width. -/
structure Transcript where
  status : TranscriptStatus
  error : String
  text : Option String
  export_subtitles_srt : Nat → String
  export_subtitles_vtt : Nat → String

/-- The configuration snapshot stored by `__init__` (defaults as in the
source).  `speech_threshold` is an optional rational in `[0,1]`; the adapter
never inspects its value, only forwards it. -/
structure Config where
  speech_model : SpeechModel := .best
  language_detection : Bool := true
  language : Option String := none
  punctuate : Bool := true
  format_text : Bool := true
  disfluencies : Bool := false
  filter_profanity : Bool := false
  word_boost : Option (List String) := none
  custom_spelling : Option (List (String × String)) := none
  output_format : TranscriptFormat := .text
  chars_per_caption : Nat := 128
  speech_threshold : Option ℚ := none
  speaker_labels : Bool := false
  multichannel : Bool := true
deriving DecidableEq

/-- Python truthiness of an `Optional[str]`: `None` and `""` are falsy. -/
def truthyStr : Option String → Bool
  | none => false
  | some s => !(s == "")

/-- Python truthiness of an `Optional[List[...]]`: `None` and `[]` are falsy. -/
def truthyList {α : Type} : Option (List α) → Bool
  | none => false
  | some l => !l.isEmpty

/-- Values that can appear in the `config_params` dictionary. -/
inductive PValue where
  | str (s : String)
  | bool (b : Bool)
  | thresh (q : Option ℚ)
  | strList (l : List String)
  | spell (l : List (String × String))
deriving DecidableEq

/-- The unconditional entries of the `config_params` dict literal of
`_transcribe_with_assemblyai` (lines 213–225).  The literal repeats
`punctuate` and `format_text` with identical values; a Python dict keeps one
entry per key, so the embedding lists each once. -/
def baseParams (c : Config) : List (String × PValue) :=
  [("speech_model", .str c.speech_model.value),
   ("language_detection", .bool c.language_detection),
   ("punctuate", .bool c.punctuate),
   ("format_text", .bool c.format_text),
   ("disfluencies", .bool c.disfluencies),
   ("filter_profanity", .bool c.filter_profanity),
   ("speech_threshold", .thresh c.speech_threshold),
   ("speaker_labels", .bool c.speaker_labels),
   ("multichannel", .bool c.multichannel)]

/-- The full `config_params` dictionary (lines 213–235): the unconditional
entries, then `word_boost`, `custom_spelling` and `language` added under the
source's conditions (`if self.word_boost`, `if self.custom_spelling`,
`if self.language and not self.language_detection` — Python truthiness). -/
def buildConfigParams (c : Config) : List (String × PValue) :=
  baseParams c
  ++ (if truthyList c.word_boost then
        [("word_boost", PValue.strList (c.word_boost.getD []))] else [])
  ++ (if truthyList c.custom_spelling then
        [("custom_spelling", PValue.spell (c.custom_spelling.getD []))] else [])
  ++ (if truthyStr c.language && !c.language_detection then
        [("language", PValue.str (c.language.getD ""))] else [])

/-- Whether the payload dictionary contains a key. -/
def hasKey (ps : List (String × PValue)) (k : String) : Bool :=
  ps.any (fun p => p.1 == k)

/-- Value stored under a key of the payload dictionary (first occurrence;
keys are unique in every payload the adapter builds). -/
def lookupKey (ps : List (String × PValue)) (k : String) : Option PValue :=
  match ps with
  | [] => none
  | p :: rest => if p.1 == k then some p.2 else lookupKey rest k

/-- Credential resolution of `__init__` line 75:
`api_key or os.environ.get("ASSEMBLYAI_API_KEY")`. -/
def resolveApiKey (api_key env_key : Option String) : Option String :=
  if truthyStr api_key then api_key else env_key

/-- The construction error message of `__init__` lines 77–80. -/
def configErrorMsg : String :=
  "AssemblyAI API key must be provided as an argument or set as environment variable ASSEMBLYAI_API_KEY"

/-- The `__init__` credential check (lines 75–80): resolve the key with the
explicit-argument-first precedence; `if not self.api_key: raise ValueError`
(the spec's `ConfigurationError`), else construction succeeds with that key. -/
def initApiKey (api_key env_key : Option String) : Except String String :=
  let k := resolveApiKey api_key env_key
  if truthyStr k then .ok (k.getD "") else .error configErrorMsg

/-- Embeds `file.startswith(('http://', 'https://'))` of `load_data` line 119
(string predicates are computed on the underlying character lists so that
concrete inputs evaluate). -/
def isUrl (file : String) : Bool :=
  "http://".data.isPrefixOf file.data || "https://".data.isPrefixOf file.data

/-- Embeds `file_path.lower()`: lower-casing character by character. -/
def lowerChars (p : String) : List Char :=
  p.data.map Char.toLower

/-- Embeds `file_path.lower().endswith(('.mp3', '.wav', '.flac', '.m4a', '.ogg'))`
of `_prepare_audio_file` line 167. -/
def isAudioPath (p : String) : Bool :=
  [".mp3", ".wav", ".flac", ".m4a", ".ogg"].any
    (fun e => e.data.isSuffixOf (lowerChars p))

/-- Embeds `file_path.lower().endswith(('.mp4', '.avi', '.mov', '.mkv', '.webm'))`
of `_prepare_audio_file` line 171. -/
def isVideoPath (p : String) : Bool :=
  [".mp4", ".avi", ".mov", ".mkv", ".webm"].any
    (fun e => e.data.isSuffixOf (lowerChars p))

/-- The filesystem: the set of existing paths. -/
structure Disk where
  files : List String
deriving DecidableEq

/-- The external world of one `load_data` call: the fresh name
`NamedTemporaryFile(suffix=".mp3", delete=False)` would produce, the outcome
of the `pydub` decode/export, whether `os.remove` raises, and the remote
service's response. -/
structure Env where
  tempPath : String
  extractResult : Except String Unit
  removeFails : Bool
  transcript : Transcript

/-- Result of `_prepare_audio_file`: the returned path (or the propagated
exception message), the filesystem afterwards, and how many times the `pydub`
extraction was invoked. -/
structure PrepResult where
  result : Except String String
  disk : Disk
  extractions : Nat
deriving DecidableEq

/-- The method `_prepare_audio_file` (lines 154–198).  Audio extensions return the path
unchanged; video extensions create the temporary file (`delete=False`, so it
exists on disk before decoding starts), invoke the `pydub` extraction once and
return the temporary path on success, propagating the exception on failure
(the temporary file stays on disk in that case); any other extension returns
the path unchanged. -/
def prepareAudioFile (env : Env) (disk : Disk) (file : String) : PrepResult :=
  if isAudioPath file then
    ⟨.ok file, disk, 0⟩
  else if isVideoPath file then
    let disk' : Disk := ⟨env.tempPath :: disk.files⟩
    match env.extractResult with
    | .ok _ => ⟨.ok env.tempPath, disk', 1⟩
    | .error e => ⟨.error e, disk', 1⟩
  else
    ⟨.ok file, disk, 0⟩

/-- A recorded invocation of a subtitle renderer, with the width it was
invoked with. -/
inductive RenderCall where
  | srt (width : Nat)
  | vtt (width : Nat)
deriving DecidableEq, Repr

/-- The method `_transcribe_with_assemblyai` (lines 200–256) after the remote call
returned `t`: on status `error` raise `Exception("Transcription failed: " +
transcript.error)` (the spec's `TranscriptionError`) without rendering;
otherwise render according to `output_format`, recording each subtitle-renderer
invocation, with `transcript.text or ""` for the `text` format. -/
def transcribeWithAssemblyai (c : Config) (t : Transcript) :
    Except String String × List RenderCall :=
  if t.status = TranscriptStatus.error then
    (.error ("Transcription failed: " ++ t.error), [])
  else
    match c.output_format with
    | .srt => (.ok (t.export_subtitles_srt c.chars_per_caption),
               [.srt c.chars_per_caption])
    | .vtt => (.ok (t.export_subtitles_vtt c.chars_per_caption),
               [.vtt c.chars_per_caption])
    | .text => (.ok (t.text.getD ""), [])

/-- Result of `load_data`: the returned document contents (or the propagated
exception message), the filesystem afterwards, and the effect logs. -/
structure LoadResult where
  result : Except String (List String)
  disk : Disk
  extractions : Nat
  renders : List RenderCall
deriving DecidableEq

/-- The method `load_data` (lines 101–152).  URLs go straight to the remote call; local
paths go through `_prepare_audio_file`; after a successful transcription, if
the prepared path differs from the input the temporary file is removed, an
`os.remove` failure being swallowed (logged only); the transcript is wrapped
into one document (the source round-trips it through a self-deleting temporary
file and `FlatReader`, whose observable effect is one document whose content
is the rendered text).  The `except` clause re-raises every exception, so
errors of preparation and transcription propagate — note that no cleanup
happens on those paths. -/
def load_data (cfg : Config) (env : Env) (disk : Disk) (file : String) :
    LoadResult :=
  if isUrl file then
    match transcribeWithAssemblyai cfg env.transcript with
    | (.error e, log) => ⟨.error e, disk, 0, log⟩
    | (.ok txt, log) => ⟨.ok [txt], disk, 0, log⟩
  else
    let prep := prepareAudioFile env disk file
    match prep.result with
    | .error e => ⟨.error e, prep.disk, prep.extractions, []⟩
    | .ok path =>
      match transcribeWithAssemblyai cfg env.transcript with
      | (.error e, log) => ⟨.error e, prep.disk, prep.extractions, log⟩
      | (.ok txt, log) =>
        let disk' : Disk :=
          if path ≠ file then
            (if env.removeFails then prep.disk
             else ⟨prep.disk.files.filter (fun q => q ≠ path)⟩)
          else prep.disk
        ⟨.ok [txt], disk', prep.extractions, log⟩

/-- Whether an embedded call returned normally (`.ok`) rather than raising. -/
def resultOk {α : Type} : Except String α → Bool
  | .ok _ => true
  | .error _ => false

/-! ### Helper lemmas -/

theorem hasKey_append (ps qs : List (String × PValue)) (k : String) :
    hasKey (ps ++ qs) k = (hasKey ps k || hasKey qs k) := by
  simp [hasKey, List.any_append]

theorem prep_passthrough (env : Env) (disk : Disk) (file : String)
    (h : isAudioPath file = true ∨ isVideoPath file = false) :
    prepareAudioFile env disk file = ⟨Except.ok file, disk, 0⟩ := by
  unfold prepareAudioFile
  rcases h with h | h
  · simp [h]
  · by_cases ha : isAudioPath file = true
    · simp [ha]
    · simp [ha, h]

theorem prep_video_ok (env : Env) (disk : Disk) (file : String)
    (ha : isAudioPath file = false) (hv : isVideoPath file = true)
    (hx : env.extractResult = Except.ok ()) :
    prepareAudioFile env disk file =
      ⟨Except.ok env.tempPath, ⟨env.tempPath :: disk.files⟩, 1⟩ := by
  simp [prepareAudioFile, ha, hv, hx]

theorem prep_video_err (env : Env) (disk : Disk) (file : String)
    (ha : isAudioPath file = false) (hv : isVideoPath file = true)
    (msg : String) (hx : env.extractResult = Except.error msg) :
    prepareAudioFile env disk file =
      ⟨Except.error msg, ⟨env.tempPath :: disk.files⟩, 1⟩ := by
  simp [prepareAudioFile, ha, hv, hx]

/-! ### Sample inputs for witnesses and counterexamples -/

/-- A successful remote response with raw text present. -/
def okTranscript : Transcript :=
  ⟨TranscriptStatus.completed, "", some "hello world",
   fun n => "SRT" ++ toString n, fun n => "VTT" ++ toString n⟩

/-- A successful remote response whose `text` field is `None`. -/
def noTextTranscript : Transcript :=
  ⟨TranscriptStatus.completed, "", none, fun _ => "", fun _ => ""⟩

/-- A remote response with status `error` and provider message `"boom"`. -/
def errTranscript : Transcript :=
  ⟨TranscriptStatus.error, "boom", none, fun _ => "", fun _ => ""⟩

/-- An environment where extraction succeeds, `os.remove` works and the
remote call succeeds. -/
def envOk : Env := ⟨"/tmp/audio123.mp3", Except.ok (), false, okTranscript⟩

/-- An environment where extraction succeeds, `os.remove` works but the
remote call reports status `error`. -/
def envErr : Env := ⟨"/tmp/audio123.mp3", Except.ok (), false, errTranscript⟩

/-- A configuration with `language=""` set and detection disabled. -/
def langEmptyConfig : Config := { language := some "", language_detection := false }

/-- The scenario configuration of the spec: SRT output with 256-character
captions. -/
def srtConfig256 : Config :=
  { output_format := TranscriptFormat.srt, chars_per_caption := 256 }

/-! ### Claim theorems -/

/-- C1, counterexample: the claim "the payload contains a `language` key if
and only if `language` is set and `language_detection` is false" fails at the
configuration `language=""`, `language_detection=False`: the language is set
(not `None`) and detection is off, yet the payload has no `language` key,
because the source guards with Python truthiness (`if self.language and not
self.language_detection`) and the empty string is falsy. -/
theorem c1_language_key_counterexample :
    langEmptyConfig.language.isSome = true ∧
    langEmptyConfig.language_detection = false ∧
    hasKey (buildConfigParams langEmptyConfig) "language" = false := by
  decide

/-- C1, amended: the payload contains a `language` key if and only if
`language` is set to a non-empty string and `language_detection` is false —
so with detection on the key never appears, and with detection off and
`language="en"` the payload carries `language="en"` (second conjunct, at
`truthyStr (some en) = true`). -/
theorem c1_language_key_iff_nonempty (c : Config) :
    hasKey (buildConfigParams c) "language" =
      (truthyStr c.language && !c.language_detection) ∧
    lookupKey (buildConfigParams c) "language" =
      (if truthyStr c.language && !c.language_detection then
        some (PValue.str (c.language.getD "")) else none) := by
  cases hwb : truthyList c.word_boost <;>
  cases hcs : truthyList c.custom_spelling <;>
  cases hl : truthyStr c.language && !c.language_detection <;>
  simp [buildConfigParams, baseParams, hasKey, lookupKey, hwb, hcs, hl]

/-- C4: construction resolves the credential with precedence — the explicit
`api_key` argument when it yields a credential (non-empty, per `api_key or
os.environ.get(...)`), else the environment lookup; when neither yields one,
construction fails with the `ValueError` (the spec's `ConfigurationError`),
and with a resolvable credential construction succeeds with that key. -/
theorem c4_api_key_resolution (a e : Option String) :
    (truthyStr a = true → initApiKey a e = Except.ok (a.getD "")) ∧
    (truthyStr a = false → truthyStr e = true →
      initApiKey a e = Except.ok (e.getD "")) ∧
    (truthyStr a = false → truthyStr e = false →
      initApiKey a e = Except.error configErrorMsg) := by
  refine ⟨fun h => ?_, fun h1 h2 => ?_, fun h1 h2 => ?_⟩ <;>
    simp [initApiKey, resolveApiKey, *]

/-- C4, witness: explicit key wins, environment key is the fallback, and
with neither the construction fails. -/
theorem c4_api_key_resolution_witness :
    initApiKey (some "KEY") (some "ENVKEY") = Except.ok "KEY" ∧
    initApiKey none (some "ENVKEY") = Except.ok "ENVKEY" ∧
    initApiKey none none = Except.error configErrorMsg :=
  ⟨(c4_api_key_resolution (some "KEY") (some "ENVKEY")).1 rfl,
   (c4_api_key_resolution none (some "ENVKEY")).2.1 rfl rfl,
   (c4_api_key_resolution none none).2.2 rfl rfl⟩

/-- C5: for every local path whose extension is a recognized audio extension
or is not a recognized video extension, `_prepare_audio_file` returns the
input path unchanged, performs no extraction (`extractions = 0`) and leaves
the filesystem untouched. -/
theorem c5_prepare_passthrough (env : Env) (disk : Disk) (file : String)
    (h : isAudioPath file = true ∨ isVideoPath file = false) :
    prepareAudioFile env disk file = ⟨Except.ok file, disk, 0⟩ :=
  prep_passthrough env disk file h

/-- C5, witness: an audio path (`song.mp3`) and an unrecognized extension
(`notes.txt`) both pass through unchanged with no extraction. -/
theorem c5_prepare_passthrough_witness :
    prepareAudioFile envOk ⟨["song.mp3"]⟩ "song.mp3" =
      ⟨Except.ok "song.mp3", ⟨["song.mp3"]⟩, 0⟩ ∧
    prepareAudioFile envOk ⟨["notes.txt"]⟩ "notes.txt" =
      ⟨Except.ok "notes.txt", ⟨["notes.txt"]⟩, 0⟩ :=
  ⟨c5_prepare_passthrough envOk ⟨["song.mp3"]⟩ "song.mp3" (Or.inl (by decide)),
   c5_prepare_passthrough envOk ⟨["notes.txt"]⟩ "notes.txt" (Or.inr (by decide))⟩

/-- C6: for every local path with a recognized video extension,
`_prepare_audio_file` invokes the audio extraction exactly once; when the
extraction succeeds it returns the temporary mp3 path, which differs from the
input path (`NamedTemporaryFile` freshness, hypothesis `hfresh`); when the
extraction fails the error propagates — no fallback. -/
theorem c6_video_extraction (env : Env) (disk : Disk) (file : String)
    (ha : isAudioPath file = false) (hv : isVideoPath file = true)
    (hfresh : env.tempPath ≠ file) :
    (prepareAudioFile env disk file).extractions = 1 ∧
    (env.extractResult = Except.ok () →
      (prepareAudioFile env disk file).result = Except.ok env.tempPath ∧
      env.tempPath ≠ file) ∧
    (∀ msg, env.extractResult = Except.error msg →
      (prepareAudioFile env disk file).result = Except.error msg) := by
  refine ⟨?_, fun hx => ⟨?_, hfresh⟩, fun msg hx => ?_⟩
  · cases hx : env.extractResult <;> simp [prepareAudioFile, ha, hv, hx]
  · simp [prepareAudioFile, ha, hv, hx]
  · simp [prepareAudioFile, ha, hv, hx]

/-- C6, witness: extracting `talk.mp4` invokes the extraction once and
returns the temporary mp3 path, which differs from the input. -/
theorem c6_video_extraction_witness :
    (prepareAudioFile envOk ⟨["talk.mp4"]⟩ "talk.mp4").extractions = 1 ∧
    (prepareAudioFile envOk ⟨["talk.mp4"]⟩ "talk.mp4").result =
      Except.ok "/tmp/audio123.mp3" ∧
    ("/tmp/audio123.mp3" : String) ≠ "talk.mp4" := by
  have h := c6_video_extraction envOk ⟨["talk.mp4"]⟩ "talk.mp4"
    (by decide) (by decide) (by decide)
  exact ⟨h.1, (h.2.1 rfl).1, (h.2.1 rfl).2⟩

/-- C7: the payload contains `word_boost` iff the word-boost list is
non-empty (`None` counting as absent), contains `custom_spelling` iff the
custom-spelling list is non-empty, and always contains `speech_threshold`
(whose value may be the embedded `None`). -/
theorem c7_optional_payload_keys (c : Config) :
    hasKey (buildConfigParams c) "word_boost" = truthyList c.word_boost ∧
    hasKey (buildConfigParams c) "custom_spelling" = truthyList c.custom_spelling ∧
    hasKey (buildConfigParams c) "speech_threshold" = true := by
  cases hwb : truthyList c.word_boost <;>
  cases hcs : truthyList c.custom_spelling <;>
  cases hl : truthyStr c.language && !c.language_detection <;>
  simp [buildConfigParams, baseParams, hasKey, hwb, hcs, hl]

/-- C2: when the remote service reports status `error`,
`_transcribe_with_assemblyai` raises the `TranscriptionError` whose message
is `"Transcription failed: "` followed by the provider's error message, no
subtitle renderer is invoked (`renders = []`), and `load_data` returns no
document (its result is not `.ok`) since the `except` clause re-raises. -/
theorem c2_remote_error_no_document (c : Config) (t : Transcript)
    (env : Env) (disk : Disk) (file : String)
    (ht : t.status = TranscriptStatus.error)
    (he : env.transcript.status = TranscriptStatus.error) :
    (transcribeWithAssemblyai c t).1 =
      Except.error ("Transcription failed: " ++ t.error) ∧
    (transcribeWithAssemblyai c t).2 = [] ∧
    resultOk (load_data c env disk file).result = false := by
  have h1 : transcribeWithAssemblyai c env.transcript =
      (Except.error ("Transcription failed: " ++ env.transcript.error), []) := by
    simp [transcribeWithAssemblyai, he]
  refine ⟨by simp [transcribeWithAssemblyai, ht],
    by simp [transcribeWithAssemblyai, ht], ?_⟩
  unfold load_data
  cases hu : isUrl file
  · cases hp : (prepareAudioFile env disk file).result with
    | error e => simp [hp, resultOk]
    | ok path => simp [hp, h1, resultOk]
  · simp [h1, resultOk]

/-- C2, witness: with a provider error `"boom"`, the transcription step
raises `Transcription failed: boom` without rendering, and a `load_data`
call on a URL input returns no document. -/
theorem c2_remote_error_no_document_witness :
    (transcribeWithAssemblyai {} errTranscript).1 =
      Except.error ("Transcription failed: " ++ errTranscript.error) ∧
    (transcribeWithAssemblyai {} errTranscript).2 = [] ∧
    resultOk (load_data {} envErr ⟨["a.mp3"]⟩ "https://host/clip.mp3").result
      = false :=
  c2_remote_error_no_document {} errTranscript envErr ⟨["a.mp3"]⟩
    "https://host/clip.mp3" rfl rfl

/-- C8: with `output_format=text` and a non-error remote result, the rendered
output is exactly the raw transcript text, and the empty string — never a
null — when the service returned no text (`transcript.text or ""`). -/
theorem c8_text_format_raw (c : Config) (t : Transcript)
    (ht : t.status ≠ TranscriptStatus.error)
    (hf : c.output_format = TranscriptFormat.text) :
    (transcribeWithAssemblyai c t).1 = Except.ok (t.text.getD "") ∧
    (t.text = none → (transcribeWithAssemblyai c t).1 = Except.ok "") := by
  refine ⟨by simp [transcribeWithAssemblyai, ht, hf], fun hn => ?_⟩
  simp [transcribeWithAssemblyai, ht, hf, hn]

/-- C8, witness: a completed transcript with `text=None` renders as the
empty string under the default (text) output format. -/
theorem c8_text_format_raw_witness :
    (transcribeWithAssemblyai {} noTextTranscript).1 =
      Except.ok (noTextTranscript.text.getD "") ∧
    (transcribeWithAssemblyai {} noTextTranscript).1 = Except.ok "" := by
  have h := c8_text_format_raw {} noTextTranscript (by decide) rfl
  exact ⟨h.1, h.2 rfl⟩

/-- C9: with a non-error remote result and `output_format=srt` (resp. `vtt`),
the corresponding subtitle renderer is invoked exactly once, with width equal
to the configured `chars_per_caption`, and its output is returned verbatim. -/
theorem c9_subtitle_renderer (c : Config) (t : Transcript)
    (ht : t.status ≠ TranscriptStatus.error) :
    (c.output_format = TranscriptFormat.srt →
      transcribeWithAssemblyai c t =
        (Except.ok (t.export_subtitles_srt c.chars_per_caption),
         [RenderCall.srt c.chars_per_caption])) ∧
    (c.output_format = TranscriptFormat.vtt →
      transcribeWithAssemblyai c t =
        (Except.ok (t.export_subtitles_vtt c.chars_per_caption),
         [RenderCall.vtt c.chars_per_caption])) := by
  constructor <;> intro hf <;> simp [transcribeWithAssemblyai, ht, hf]

/-- C9, witness: with `chars_per_caption=256` and SRT output, the SRT
renderer is invoked once with width 256 and its output returned verbatim. -/
theorem c9_subtitle_renderer_witness :
    transcribeWithAssemblyai srtConfig256 okTranscript =
      (Except.ok (okTranscript.export_subtitles_srt 256),
       [RenderCall.srt 256]) :=
  (c9_subtitle_renderer srtConfig256 okTranscript (by decide)).1 rfl

/-- C3, counterexample: the claim "after any call (success or failure) that
created a temporary extraction file, that file no longer exists on disk"
fails on the raising path.  Input `talk.mp4` (local video), extraction
succeeds and creates the temporary file, the remote service reports an
error, so `load_data` raises via the re-raising `except` clause — the
`os.remove` cleanup on line 137 sits only on the success path, so the
temporary file is still on disk after the call. -/
theorem c3_temp_file_survives_failed_call :
    isUrl "talk.mp4" = false ∧
    isVideoPath "talk.mp4" = true ∧
    resultOk (load_data {} envErr ⟨["talk.mp4"]⟩ "talk.mp4").result = false ∧
    envErr.tempPath ∈ (load_data {} envErr ⟨["talk.mp4"]⟩ "talk.mp4").disk.files := by
  decide

/-- C3, amended: for a local video input whose extraction succeeded, when the
call returns a document the temporary extraction file is removed (so it no
longer exists when the deletion does not fail), and a deletion failure does
not turn the success into a failure — the result is `.ok` regardless of
`removeFails`; on a raising call the temporary file is not removed. -/
theorem c3_temp_cleanup_on_success (cfg : Config) (env : Env) (disk : Disk)
    (file : String)
    (hurl : isUrl file = false)
    (ha : isAudioPath file = false) (hv : isVideoPath file = true)
    (hx : env.extractResult = Except.ok ())
    (ht : env.transcript.status ≠ TranscriptStatus.error)
    (hfresh : env.tempPath ≠ file) :
    resultOk (load_data cfg env disk file).result = true ∧
    (env.removeFails = false →
      env.tempPath ∉ (load_data cfg env disk file).disk.files) := by
  obtain ⟨s, l, h1⟩ : ∃ s l, transcribeWithAssemblyai cfg env.transcript =
      (Except.ok s, l) := by
    unfold transcribeWithAssemblyai
    rw [if_neg ht]
    cases cfg.output_format <;> exact ⟨_, _, rfl⟩
  have hprep := prep_video_ok env disk file ha hv hx
  constructor
  · simp [load_data, hurl, hprep, h1, resultOk]
  · intro hrf
    simp [load_data, hurl, hprep, h1, hfresh, hrf, List.mem_filter]

/-- C3, amended, witness: transcribing `talk.mp4` successfully removes the
temporary mp3 from the disk and returns a document. -/
theorem c3_temp_cleanup_on_success_witness :
    resultOk (load_data {} envOk ⟨["talk.mp4"]⟩ "talk.mp4").result = true ∧
    envOk.tempPath ∉ (load_data {} envOk ⟨["talk.mp4"]⟩ "talk.mp4").disk.files := by
  have h := c3_temp_cleanup_on_success {} envOk ⟨["talk.mp4"]⟩ "talk.mp4"
    (by decide) (by decide) (by decide) rfl (by decide) (by decide)
  exact ⟨h.1, h.2 rfl⟩

/-- C10: the caller's input file is never deleted by `load_data` — if the
input path exists on disk before the call it still exists after it (the
single `os.remove` of the success path is guarded by `file_path != str(file)`),
and for URL inputs as well as passthrough inputs (audio or unrecognized
extension) the whole filesystem is left untouched. -/
theorem c10_input_file_preserved (cfg : Config) (env : Env) (disk : Disk)
    (file : String) :
    (file ∈ disk.files → file ∈ (load_data cfg env disk file).disk.files) ∧
    (isUrl file = true → (load_data cfg env disk file).disk = disk) ∧
    (isUrl file = false →
      isAudioPath file = true ∨ isVideoPath file = false →
      (load_data cfg env disk file).disk = disk) := by
  by_cases hu : isUrl file = true
  · have hd : (load_data cfg env disk file).disk = disk := by
      unfold load_data
      rw [if_pos hu]
      rcases h1 : transcribeWithAssemblyai cfg env.transcript with ⟨r, log⟩
      cases r <;> simp
    exact ⟨fun hm => by rw [hd]; exact hm, fun _ => hd,
      fun hfalse _ => absurd (hu.symm.trans hfalse) (by decide)⟩
  · have hu' : isUrl file = false := by
      cases h : isUrl file
      · rfl
      · exact absurd h hu
    by_cases hpass : isAudioPath file = true ∨ isVideoPath file = false
    · have hd : (load_data cfg env disk file).disk = disk := by
        unfold load_data
        rw [if_neg hu, prep_passthrough env disk file hpass]
        rcases h1 : transcribeWithAssemblyai cfg env.transcript with ⟨r, log⟩
        cases r <;> simp [h1]
      exact ⟨fun hm => by rw [hd]; exact hm,
        fun h => absurd (hu'.symm.trans h) (by decide), fun _ _ => hd⟩
    · push_neg at hpass
      obtain ⟨ha', hv'⟩ := hpass
      have ha : isAudioPath file = false := by
        cases h : isAudioPath file
        · rfl
        · exact absurd h ha'
      have hv : isVideoPath file = true := by
        cases h : isVideoPath file
        · exact absurd h hv'
        · rfl
      have hmem : file ∈ disk.files →
          file ∈ (load_data cfg env disk file).disk.files := by
        intro hm
        unfold load_data
        rw [if_neg hu]
        cases hx : env.extractResult with
        | error msg =>
          rw [prep_video_err env disk file ha hv msg hx]
          simp [hm]
        | ok u =>
          rw [prep_video_ok env disk file ha hv hx]
          rcases h1 : transcribeWithAssemblyai cfg env.transcript with ⟨r, log⟩
          cases r with
          | error e => simp [h1, hm]
          | ok txt =>
            by_cases htf : env.tempPath = file
            · simp [h1, htf, hm]
            · have hft : file ≠ env.tempPath := fun h => htf h.symm
              by_cases hrf : env.removeFails = true
              · simp [h1, htf, hrf, hm]
              · simp [h1, htf, hrf, hm, hft, List.mem_filter]
      refine ⟨hmem, fun h => absurd (hu'.symm.trans h) (by decide),
        fun _ hp => ?_⟩
      rcases hp with hp | hp
      · exact absurd (ha.symm.trans hp) (by decide)
      · exact absurd (hv.symm.trans hp) (by decide)

/-- C10, witness: a passthrough audio input that exists on disk still exists
after the call, and a URL call leaves the filesystem untouched. -/
theorem c10_input_file_preserved_witness :
    "song.mp3" ∈ (load_data {} envOk ⟨["song.mp3"]⟩ "song.mp3").disk.files ∧
    (load_data {} envOk ⟨["x"]⟩ "https://host/clip.mp3").disk = ⟨["x"]⟩ :=
  ⟨(c10_input_file_preserved {} envOk ⟨["song.mp3"]⟩ "song.mp3").1 (by decide),
   (c10_input_file_preserved {} envOk ⟨["x"]⟩ "https://host/clip.mp3").2.1
     (by decide)⟩

end AssemblyAIReader
